import Mathlib

/-
Verification development for the gen-service-accounts repository
(src/trial.py and src/new.py), a pair of interactive provisioning
scripts for a Google Cloud service account.

The Python sources are shallowly embedded: every external command
execution is represented by an environment function yielding the
captured (stdout, stderr, return code) triple for each attempt, and the
stateful loops of the scripts become explicit recursion or step
functions over that environment.
-/

/- ## String utilities

Python substring containment (the `in` operator on str) modelled over
the character lists underlying Lean strings. -/

/-- Does the haystack start with the pattern? (first argument: haystack). -/
def charsStartWith : List Char → List Char → Bool
  | _, [] => true
  | [], _ :: _ => false
  | c :: cs, p :: ps => c = p && charsStartWith cs ps

/-- Does the haystack contain the pattern as a contiguous substring? -/
def charsContain : List Char → List Char → Bool
  | [], pat => pat.isEmpty
  | c :: rest, pat => charsStartWith (c :: rest) pat || charsContain rest pat

/-- Python `pat in hay` on strings. -/
def strContains (hay pat : String) : Bool :=
  charsContain hay.data pat.data

/-- Python `str.rstrip()` restricted to whitespace: drop trailing whitespace. -/
def rstrip (s : String) : String :=
  String.mk (((s.data.reverse).dropWhile Char.isWhitespace).reverse)

/-- Python `str.lower()` on the ASCII inputs the scripts compare. -/
def pyLower (s : String) : String :=
  String.mk (s.data.map Char.toLower)

/- ## CommandRunner: trial.py retryable_command (lines 255-285)

The Python function runs a shell command up to max_num_retries times.
The embedding abstracts the subprocess as a function from the attempt
counter (the Python variable num_tries, starting at 1) to the captured
result triple. -/

/-- Captured result of one command execution: stdout, stderr (decoded) and
the process return code. -/
structure CommandResult where
  stdout : String
  stderr : String
  returnCode : Int
deriving DecidableEq, Repr

/-- How a call of retryable_command ends.
The source has two distinct return statements (the success return inside
the loop at line 276 and the suppressed-failure return at line 282), a
process-terminating sys.exit(return_code) at line 285, and the implicit
Python return None when the loop body never runs. -/
inductive RetryOutcome
  | returnedSuccess (r : CommandResult)
  | returnedSuppressed (r : CommandResult)
  | exit (code : Int) (loggedStderr : String)
  | noneResult
deriving DecidableEq, Repr

/-- Full observable behaviour of one retryable_command call: how many times
the loop body ran (= how many external commands were executed), the list of
delays slept between attempts, and the final outcome. -/
structure RetryTrace where
  attempts : Nat
  sleeps : List Nat
  outcome : RetryOutcome
deriving DecidableEq, Repr

/-- Loop body of retryable_command. num_tries is the Python counter
(starts at 1). The fuel argument is termination bookkeeping only: the
top-level wrapper passes max_num_retries.toNat, which keeps the invariant
fuel = (max_num_retries + 1 - num_tries).toNat, so fuel = 0 exactly when
the Python guard num_tries <= max_num_retries is false. All tests in the
body are the source's own comparisons. -/
def retryable_command_go (exec : Int → CommandResult) (max_num_retries : Int)
    (retry_delay : Nat) (suppress_errors require_output : Bool) :
    Nat → Int → RetryTrace
  | 0, _ => ⟨0, [], RetryOutcome.noneResult⟩
  | Nat.succ fuel, num_tries =>
    let r := exec num_tries
    -- Python: if return_code == 0: if not require_output or (require_output and stdout): return
    if r.returnCode = 0 ∧ (require_output = false ∨ (require_output = true ∧ r.stdout ≠ "")) then
      ⟨1, [], RetryOutcome.returnedSuccess r⟩
    else if num_tries < max_num_retries then
      let t := retryable_command_go exec max_num_retries retry_delay suppress_errors
        require_output fuel (num_tries + 1)
      ⟨t.attempts + 1, retry_delay :: t.sleeps, t.outcome⟩
    else if suppress_errors then
      ⟨1, [], RetryOutcome.returnedSuppressed r⟩
    else
      ⟨1, [], RetryOutcome.exit r.returnCode r.stderr⟩

/-- trial.py retryable_command: the loop starting at num_tries = 1.
The defaults at the Python call sites are max_num_retries = 3,
retry_delay = 5, suppress_errors = false, require_output = false. -/
def retryable_command (exec : Int → CommandResult) (max_num_retries : Int)
    (retry_delay : Nat) (suppress_errors require_output : Bool) : RetryTrace :=
  retryable_command_go exec max_num_retries retry_delay suppress_errors require_output
    max_num_retries.toNat 1

/-- Python tuple unpacking of the returned value, as in
get_project_id (trial.py line 290): succeeds on a returned triple,
fails (TypeError, modelled as none) when the function returned None. -/
def unpackTriple : RetryOutcome → Option CommandResult
  | RetryOutcome.returnedSuccess r => some r
  | RetryOutcome.returnedSuppressed r => some r
  | _ => Option.none

/-- trial.py get_project_id (lines 288-291): runs the config lookup with
require_output = true and unpacks the triple. -/
def get_project_id (exec : Int → CommandResult) : Option String :=
  (unpackTriple (retryable_command exec 3 5 false true).outcome).map
    (fun r => rstrip r.stdout)

/- ## Helper lemmas about the retry loop -/

/-- The loop body never runs more often than the fuel allows. -/
lemma retryable_command_go_attempts_le (exec : Int → CommandResult) (m : Int)
    (d : Nat) (s ro : Bool) :
    ∀ fuel : Nat, ∀ nt : Int,
      (retryable_command_go exec m d s ro fuel nt).attempts ≤ fuel := by
  intro fuel
  induction fuel with
  | zero => intro nt; simp [retryable_command_go]
  | succ n ih =>
    intro nt
    simp only [retryable_command_go]
    split
    · simp
    · split
      · simpa using Nat.succ_le_succ (ih (nt + 1))
      · split <;> simp

/-- If every attempt from num_tries up to max_num_retries fails the
success test, the loop runs all remaining attempts, sleeps between each
pair, and ends in the suppressed return or the process exit with the last
attempt's data. -/
lemma retryable_command_go_all_fail (exec : Int → CommandResult) (m : Int)
    (d : Nat) (s ro : Bool) :
    ∀ fuel : Nat, ∀ nt : Int, fuel = (m + 1 - nt).toNat → 1 ≤ fuel →
      (∀ i : Int, nt ≤ i → i ≤ m →
        ¬ ((exec i).returnCode = 0 ∧
           (ro = false ∨ (ro = true ∧ (exec i).stdout ≠ "")))) →
      retryable_command_go exec m d s ro fuel nt =
        ⟨fuel, List.replicate (fuel - 1) d,
          if s then RetryOutcome.returnedSuppressed (exec m)
          else RetryOutcome.exit (exec m).returnCode (exec m).stderr⟩ := by
  intro fuel
  induction fuel with
  | zero => intro nt _ h1; omega
  | succ n ih =>
    intro nt hfuel _ hfail
    have hntm : nt ≤ m := by omega
    simp only [retryable_command_go]
    rw [if_neg (hfail nt le_rfl hntm)]
    by_cases hlt : nt < m
    · rw [if_pos hlt]
      have hn : n = (m + 1 - (nt + 1)).toNat := by omega
      have hn1 : 1 ≤ n := by omega
      rw [ih (nt + 1) hn hn1 (fun i hi him => hfail i (by omega) him)]
      have hrep : List.replicate n d = d :: List.replicate (n - 1) d := by
        conv_lhs => rw [show n = (n - 1) + 1 by omega]
        rw [List.replicate_succ]
      simp [hrep]
    · rw [if_neg hlt]
      have hnm : nt = m := by omega
      have hn0 : n = 0 := by omega
      subst hnm hn0
      by_cases hs : s = true
      · simp [hs]
      · simp at hs
        simp [hs]

/- ## Claim theorems about the retry loop -/

/-- C1: for every command and retry policy, while the exit status is
non-zero and attempts remain, retryable_command sleeps retry_delay between
attempts and retries; it makes exactly max_num_retries attempts in total
(and never more, for any command); once attempts are exhausted, with
suppress_errors set it returns the last captured triple, and otherwise the
call ends in a process exit carrying the last command's exit status, with
the captured stderr logged. -/
theorem retryable_command_retry_and_exhaustion (exec : Int → CommandResult)
    (m : Int) (d : Nat) (s ro : Bool) (hm : 1 ≤ m)
    (hfail : ∀ i : Int, 1 ≤ i → i ≤ m → (exec i).returnCode ≠ 0) :
    (retryable_command exec m d s ro).attempts = m.toNat ∧
    (retryable_command exec m d s ro).sleeps = List.replicate (m.toNat - 1) d ∧
    (s = true → (retryable_command exec m d s ro).outcome =
      RetryOutcome.returnedSuppressed (exec m)) ∧
    (s = false → (retryable_command exec m d s ro).outcome =
      RetryOutcome.exit (exec m).returnCode (exec m).stderr) ∧
    (∀ exec2 : Int → CommandResult,
      (retryable_command exec2 m d s ro).attempts ≤ m.toNat) := by
  have hf : ∀ i : Int, (1 : Int) ≤ i → i ≤ m →
      ¬ ((exec i).returnCode = 0 ∧
         (ro = false ∨ (ro = true ∧ (exec i).stdout ≠ ""))) :=
    fun i h1 h2 hc => hfail i h1 h2 hc.1
  have hall := retryable_command_go_all_fail exec m d s ro m.toNat 1
    (by omega) (by omega) hf
  unfold retryable_command
  rw [hall]
  refine ⟨rfl, rfl, ?_, ?_, ?_⟩
  · intro hs; simp [hs]
  · intro hs; simp [hs]
  · intro exec2
    exact retryable_command_go_attempts_le exec2 m d s ro m.toNat 1

/-- Witness for C1: a command failing with exit status 1 on both of two
allowed attempts, with errors suppressed, yields two attempts, one sleep of
the configured delay, and the suppressed return of the last triple. -/
theorem retryable_command_retry_and_exhaustion_witness :
    (retryable_command (fun _ => ⟨"", "boom", 1⟩) 2 7 true false).attempts = 2 ∧
    (retryable_command (fun _ => ⟨"", "boom", 1⟩) 2 7 true false).sleeps =
      List.replicate 1 7 ∧
    (retryable_command (fun _ => ⟨"", "boom", 1⟩) 2 7 true false).outcome =
      RetryOutcome.returnedSuppressed ⟨"", "boom", 1⟩ := by
  have h := retryable_command_retry_and_exhaustion (fun _ => ⟨"", "boom", 1⟩)
    2 7 true false (by decide) (fun i _ _ => by show (1 : Int) ≠ 0; decide)
  exact ⟨h.1, h.2.1, h.2.2.1 rfl⟩

/-- C2: an attempt of the retry loop returns that attempt's result
immediately through the success return, with no further attempt and no
sleep, exactly when the exit status is zero and (require_output is false or
the captured stdout is non-empty). -/
theorem retryable_command_success_iff (exec : Int → CommandResult)
    (m : Int) (d : Nat) (s ro : Bool) (nt : Int) (fuel : Nat)
    (hfuel : fuel = (m + 1 - nt).toNat) (hnt : nt ≤ m) :
    ((retryable_command_go exec m d s ro fuel nt).outcome =
       RetryOutcome.returnedSuccess (exec nt) ∧
     (retryable_command_go exec m d s ro fuel nt).attempts = 1 ∧
     (retryable_command_go exec m d s ro fuel nt).sleeps = []) ↔
    ((exec nt).returnCode = 0 ∧ (ro = false ∨ (exec nt).stdout ≠ "")) := by
  obtain ⟨n, rfl⟩ : ∃ n, fuel = n + 1 := ⟨fuel - 1, by omega⟩
  constructor
  · intro hlhs
    by_cases hcc : (exec nt).returnCode = 0 ∧
        (ro = false ∨ (ro = true ∧ (exec nt).stdout ≠ ""))
    · exact ⟨hcc.1, hcc.2.elim Or.inl (fun hh => Or.inr hh.2)⟩
    · exfalso
      simp only [retryable_command_go] at hlhs
      rw [if_neg hcc] at hlhs
      by_cases hlt : nt < m
      · rw [if_pos hlt] at hlhs
        exact absurd hlhs.2.2 (by simp)
      · rw [if_neg hlt] at hlhs
        by_cases hs : s = true
        · rw [if_pos hs] at hlhs
          exact absurd hlhs.1 (by simp)
        · rw [if_neg hs] at hlhs
          exact absurd hlhs.1 (by simp)
  · intro hrhs
    have hcc : (exec nt).returnCode = 0 ∧
        (ro = false ∨ (ro = true ∧ (exec nt).stdout ≠ "")) := by
      refine ⟨hrhs.1, ?_⟩
      cases ro with
      | false => exact Or.inl rfl
      | true => exact Or.inr ⟨rfl, hrhs.2.resolve_left (by simp)⟩
    simp only [retryable_command_go]
    rw [if_pos hcc]
    exact ⟨rfl, rfl, rfl⟩

/-- Witness for C2: a first attempt returning exit status zero is an
immediate success return of its own triple. -/
theorem retryable_command_success_iff_witness :
    (retryable_command_go (fun _ => ⟨"ok", "", 0⟩) 3 5 false false 3 1).outcome =
      RetryOutcome.returnedSuccess ⟨"ok", "", 0⟩ ∧
    (retryable_command_go (fun _ => ⟨"ok", "", 0⟩) 3 5 false false 3 1).attempts = 1 ∧
    (retryable_command_go (fun _ => ⟨"ok", "", 0⟩) 3 5 false false 3 1).sleeps = [] :=
  (retryable_command_success_iff (fun _ => ⟨"ok", "", 0⟩) 3 5 false false 1 3
    (by decide) (by decide)).mpr (by decide)

/-- C10: calling retryable_command with max_num_retries below 1 never runs
the loop body: no external command is executed, no sleep happens, the
function falls off the loop returning None, and unpacking the result as a
triple fails. -/
theorem retryable_command_no_attempts (exec : Int → CommandResult)
    (m : Int) (d : Nat) (s ro : Bool) (hm : m < 1) :
    retryable_command exec m d s ro = ⟨0, [], RetryOutcome.noneResult⟩ ∧
    unpackTriple (retryable_command exec m d s ro).outcome = Option.none := by
  have h0 : m.toNat = 0 := by omega
  unfold retryable_command
  rw [h0]
  exact ⟨rfl, rfl⟩

/-- Witness for C10: with zero allowed attempts even an always-succeeding
command is never executed and the result cannot be unpacked. -/
theorem retryable_command_no_attempts_witness :
    retryable_command (fun _ => ⟨"x", "y", 0⟩) 0 5 false true =
      ⟨0, [], RetryOutcome.noneResult⟩ ∧
    unpackTriple (retryable_command (fun _ => ⟨"x", "y", 0⟩) 0 5 false true).outcome =
      Option.none :=
  retryable_command_no_attempts (fun _ => ⟨"x", "y", 0⟩) 0 5 false true (by decide)

/- ## trial.py constants and the ToS recovery loop -/

namespace Trial

/-- trial.py TOOL_NAME (line 34). -/
def TOOL_NAME : String := "Pawa-IT-Drive-Audit"

/-- trial.py APIS (lines 38-46). -/
def APIS : List String :=
  ["admin.googleapis.com", "contacts.googleapis.com", "gmail.googleapis.com",
   "drive.googleapis.com", "driveactivity.googleapis.com"]

/-- trial.py SCOPES (lines 48-52). -/
def SCOPES : List String :=
  ["https://www.googleapis.com/auth/drive",
   "https://www.googleapis.com/auth/drive.activity.readonly",
   "https://www.googleapis.com/auth/admin.directory.user"]

/-- The probe command rebuilt on every iteration of verify_tos_accepted
(line 82): gcloud services enable applied to APIS[0]. -/
def tos_probe_command : String := "gcloud services enable " ++ APIS.headD ""

/-- Control state of the verify_tos_accepted loop (lines 78-109):
probing k means the loop is about to issue its k-th probe of the first
API; accepted means the loop ended with tos_accepted = True; exitedProc c
means the process terminated via sys.exit(c). -/
inductive TosState
  | probing (k : Nat)
  | accepted
  | exitedProc (code : Int)
deriving DecidableEq, Repr

/-- The triple the loop unpacks at line 83: the probe command run through
retryable_command with max_num_retries = 1 and suppress_errors = true.
The environment exec gives the captured result of running a command
string during iteration k. -/
def tos_probe_result (exec : String → Nat → CommandResult) (k : Nat) :
    CommandResult :=
  (unpackTriple
    (retryable_command (fun _ => exec tos_probe_command k) 1 5 true false).outcome).getD
    ⟨"", "", 0⟩

/-- Under the probe policy (one attempt, errors suppressed) the unpacked
triple is always the single attempt's own result. -/
lemma tos_probe_result_eq (exec : String → Nat → CommandResult) (k : Nat) :
    tos_probe_result exec k = exec tos_probe_command k := by
  show (unpackTriple
    (retryable_command_go (fun _ => exec tos_probe_command k) 1 5 true false 1 1).outcome).getD
    ⟨"", "", 0⟩ = exec tos_probe_command k
  simp only [retryable_command_go]
  split
  · rfl
  · rw [if_neg (by omega : ¬ ((1 : Int) < 1))]
    rfl

/-- One iteration of the verify_tos_accepted loop body (lines 81-108),
from the state about to issue the k-th probe. The answers stream gives the
operator's input to the k-th prompt (line 100). Which of the two
acceptance messages is printed (the universal/appsadmin secondary match,
lines 88-99) has no effect on control flow and is not modelled. -/
def tosStep (exec : String → Nat → CommandResult) (answers : Nat → String) :
    TosState → TosState
  | TosState.probing k =>
    let r := tos_probe_result exec k
    -- Python: if return_code:
    if r.returnCode ≠ 0 then
      if strContains r.stderr "UREQ_TOS_NOT_ACCEPTED" = true then
        -- the prompt at line 100; 'n' cancels via sys.exit(0)
        if pyLower (answers k) = "n" then TosState.exitedProc 0
        else TosState.probing (k + 1)
      else TosState.exitedProc 1
    else TosState.accepted
  | s => s

/-- Environment driving the loop forever: every probe fails with the
terms-of-service marker and the operator never answers n. -/
def tosLoopExec : String → Nat → CommandResult :=
  fun _ _ => ⟨"", "UREQ_TOS_NOT_ACCEPTED", 1⟩

/-- Operator who always presses Enter (empty input). -/
def tosLoopAnswers : Nat → String := fun _ => ""

lemma tosLoop_step (k : Nat) :
    tosStep tosLoopExec tosLoopAnswers (TosState.probing k) =
      TosState.probing (k + 1) := by
  simp only [tosStep, tos_probe_result_eq, tosLoopExec, tosLoopAnswers]
  rw [if_pos (by decide), if_pos (by decide), if_neg (by decide)]

lemma tosLoop_iterate :
    ∀ n : Nat, (tosStep tosLoopExec tosLoopAnswers)^[n] (TosState.probing 0) =
      TosState.probing n := by
  intro n
  induction n with
  | zero => rfl
  | succ n ih => rw [Function.iterate_succ_apply', ih, tosLoop_step]

/-- Environment for C4: the probe fails with exit status 2 and a stderr
carrying no terms-of-service marker. -/
def nonTosExec : String → Nat → CommandResult :=
  fun _ _ => ⟨"", "PERMISSION_DENIED", 2⟩

/-- Operator stream for C4 (never consulted on the non-marker path). -/
def nonTosAnswers : Nat → String := fun _ => ""

end Trial

/-- C3: whenever the probe fails with the terms-of-service marker in its
stderr and the operator is prompted, an answer of n in any letter case
makes the process exit with status 0, and every other answer sends the
loop back to probing (which reissues the same probe command,
tos_probe_command, by construction of tosStep); there is no bound on the
number of such cycles. -/
theorem tos_prompt_loop (exec : String → Nat → CommandResult)
    (answers : Nat → String) (k : Nat)
    (hfail : (exec Trial.tos_probe_command k).returnCode ≠ 0)
    (hmarker : strContains (exec Trial.tos_probe_command k).stderr
      "UREQ_TOS_NOT_ACCEPTED" = true) :
    (pyLower (answers k) = "n" →
      Trial.tosStep exec answers (Trial.TosState.probing k) =
        Trial.TosState.exitedProc 0) ∧
    (pyLower (answers k) ≠ "n" →
      Trial.tosStep exec answers (Trial.TosState.probing k) =
        Trial.TosState.probing (k + 1)) ∧
    (∀ n : Nat, ∃ exec2 answers2,
      (Trial.tosStep exec2 answers2)^[n] (Trial.TosState.probing 0) =
        Trial.TosState.probing n) := by
  refine ⟨?_, ?_, ?_⟩
  · intro ha
    simp only [Trial.tosStep, Trial.tos_probe_result_eq]
    rw [if_pos hfail, if_pos hmarker, if_pos ha]
  · intro ha
    simp only [Trial.tosStep, Trial.tos_probe_result_eq]
    rw [if_pos hfail, if_pos hmarker, if_neg ha]
  · intro n
    exact ⟨Trial.tosLoopExec, Trial.tosLoopAnswers, Trial.tosLoop_iterate n⟩

/-- Witness for C3: a marker failure answered with an upper-case N exits
the process with status 0. -/
theorem tos_prompt_loop_witness :
    Trial.tosStep (fun _ _ => ⟨"", "UREQ_TOS_NOT_ACCEPTED universal", 1⟩)
      (fun _ => "N") (Trial.TosState.probing 0) = Trial.TosState.exitedProc 0 :=
  (tos_prompt_loop (fun _ _ => ⟨"", "UREQ_TOS_NOT_ACCEPTED universal", 1⟩)
    (fun _ => "N") 0 (by decide) (by decide)).1 (by decide)

/-- Counterexample for C4: a probe failing with exit status 2 and no
terms-of-service marker makes the loop terminate the process with status 1
(the literal sys.exit(1) at line 106), not with the probe command's exit
status 2 as the claim states. -/
theorem tos_nonmarker_exit_status_counterexample :
    (Trial.nonTosExec Trial.tos_probe_command 0).returnCode = 2 ∧
    strContains (Trial.nonTosExec Trial.tos_probe_command 0).stderr
      "UREQ_TOS_NOT_ACCEPTED" = false ∧
    Trial.tosStep Trial.nonTosExec Trial.nonTosAnswers (Trial.TosState.probing 0) =
      Trial.TosState.exitedProc 1 ∧
    Trial.tosStep Trial.nonTosExec Trial.nonTosAnswers (Trial.TosState.probing 0) ≠
      Trial.TosState.exitedProc 2 := by
  decide

/-- C4 as amended: for every probe failure whose stderr does not contain
the terms-of-service marker, the loop terminates the process with the
constant exit status 1 (after logging the captured stderr), regardless of
the probe command's own exit status. -/
theorem tos_nonmarker_exits_one (exec : String → Nat → CommandResult)
    (answers : Nat → String) (k : Nat)
    (hfail : (exec Trial.tos_probe_command k).returnCode ≠ 0)
    (hmarker : strContains (exec Trial.tos_probe_command k).stderr
      "UREQ_TOS_NOT_ACCEPTED" = false) :
    Trial.tosStep exec answers (Trial.TosState.probing k) =
      Trial.TosState.exitedProc 1 := by
  simp only [Trial.tosStep, Trial.tos_probe_result_eq]
  rw [if_pos hfail, if_neg (by simp [hmarker])]

/-- Witness for C4: the amended statement applied to a concrete
non-marker failure. -/
theorem tos_nonmarker_exits_one_witness :
    Trial.tosStep Trial.nonTosExec Trial.nonTosAnswers (Trial.TosState.probing 3) =
      Trial.TosState.exitedProc 1 :=
  tos_nonmarker_exits_one Trial.nonTosExec Trial.nonTosAnswers 3
    (by decide) (by decide)

/- ## trial.py pipeline order (main, lines 330-349) and service account -/

/-- Python truthiness of a string: non-empty strings are truthy. -/
def pyTruthy (s : String) : Bool := s != ""

namespace Trial

/-- The eight steps awaited in order by main (trial.py lines 340-347). -/
inductive PipeStep
  | createProject
  | verifyTos
  | enableApis
  | createServiceAccount
  | authorizeServiceAccount
  | createServiceAccountKey
  | downloadServiceAccountKey
  | deleteKey
deriving DecidableEq, Repr

/-- The fixed order of main's awaits. -/
def mainSteps : List PipeStep :=
  [PipeStep.createProject, PipeStep.verifyTos, PipeStep.enableApis,
   PipeStep.createServiceAccount, PipeStep.authorizeServiceAccount,
   PipeStep.createServiceAccountKey, PipeStep.downloadServiceAccountKey,
   PipeStep.deleteKey]

/-- How one pipeline step ends: it completes and control reaches the next
await, or the whole process terminates inside it (a sys.exit reached
through retryable_command, or an uncaught exception). -/
inductive StepOutcome
  | ok
  | procExit (code : Int)
deriving DecidableEq, Repr

/-- Sequential execution of main's await list: a step starts only after
every earlier step completed, and nothing after a process-terminating
step runs. main wraps no try/finally around the tail of the pipeline. -/
def runSteps (outcome : PipeStep → StepOutcome) : List PipeStep → List PipeStep
  | [] => []
  | s :: rest =>
    match outcome s with
    | StepOutcome.ok => s :: runSteps outcome rest
    | StepOutcome.procExit _ => [s]

/-- The steps that actually start in a run of main. -/
def executedSteps (outcome : PipeStep → StepOutcome) : List PipeStep :=
  runSteps outcome mainSteps

/-- How many times a given step starts in a run of main. -/
def timesExecuted (outcome : PipeStep → StepOutcome) (s : PipeStep) : Nat :=
  (executedSteps outcome).count s

/-- download_service_account_key (lines 151-168) awaits one internal
retryable command (via get_admin_user_email), reads the staged key file
and posts it to the persistence endpoint; the response object returned by
the post is never examined, so the HTTP delivery status cannot change the
step's outcome; the step terminates the process only through the internal
command's trace. -/
def download_step_outcome (emailTrace : RetryTrace) (_postStatus : Int) :
    StepOutcome :=
  match emailTrace.outcome with
  | RetryOutcome.exit c _ => StepOutcome.procExit c
  | _ => StepOutcome.ok

/-- trial.py line 122: deterministic service account name derived from
the tool name. -/
def service_account_name : String := pyLower TOOL_NAME ++ "-service-account"

/-- trial.py create_service_account (lines 120-127): the creation command
is run through retryable_command with the default policy (3 attempts, 5
second delay, errors not suppressed); there is no fallback path. -/
def create_service_account (exec : Int → CommandResult) : RetryTrace :=
  retryable_command exec 3 5 false false

/-- The command string built at lines 124-126. -/
def create_service_account_command : String :=
  "gcloud iam service-accounts create " ++ service_account_name ++
    " --display-name \"" ++ TOOL_NAME ++ " Service Account\""

/-- Fields the two try blocks of is_service_disabled (lines 234-252) read
from the parsed JSON response: reason holds error.errors[0].reason when
that path exists, message holds error.message when it exists; a missing
field or a JSON parse failure raises and the block falls through via
except pass, modelled by the corresponding field being none. -/
structure ParsedApiError where
  reason : Option String
  message : Option String
deriving DecidableEq, Repr

/-- trial.py is_service_disabled (lines 234-252). The test at line 240 is
the Python expression
"notACalendarUser" or "notFound" or "authError" in error_reason,
which parses as the disjunction of two truthy string literals and one
membership test; it is evaluated here with Python truthiness. -/
def is_service_disabled (raw : Option ParsedApiError) : Bool :=
  match raw with
  | Option.none => true
  | some resp =>
    let firstBlock : Option Bool :=
      match resp.reason with
      | some error_reason =>
        if pyTruthy "notACalendarUser" || pyTruthy "notFound" ||
            strContains error_reason "authError" then some true
        else Option.none
      | Option.none => Option.none
    match firstBlock with
    | some b => b
    | Option.none =>
      match resp.message with
      | some msg => if strContains msg "service not enabled" then true else false
      | Option.none => false

end Trial

namespace New

/-- new.py hardcoded account id (line 211); it is not derived from the
configured TOOL_NAME "pawait-drive-audit". -/
def service_account_name : String := "test-create-service-account"

/-- A service-account resource as the IAM API calls return it. -/
structure SAResource where
  email : String
  name : String
  uniqueId : String
  projectId : String
deriving DecidableEq, Repr

/-- The dict built at new.py lines 228-233. -/
structure ServiceAccountDetails where
  email : String
  name : String
  unique_id : String
  project_id : String
deriving DecidableEq, Repr

/-- Resource name used by the fallback get call (new.py line 225). -/
def existing_account_resource (project_id : String) : String :=
  "projects/" ++ project_id ++ "/serviceAccounts/" ++ service_account_name ++
    "@" ++ project_id ++ ".iam.gserviceaccount.com"

/-- new.py create_service_account (lines 201-236): try the create call; on
an HttpError (for example when the account already exists) fall back to
fetching the existing account; then package the four identity fields.
create models the create API call's result (error value = HttpError);
getResource models the get API call keyed by resource name. -/
def create_service_account (project_id : String)
    (create : Except Unit SAResource) (getResource : String → SAResource) :
    ServiceAccountDetails :=
  let my_service_account :=
    match create with
    | Except.ok sa => sa
    | Except.error _ => getResource (existing_account_resource project_id)
  ⟨my_service_account.email, my_service_account.name,
   my_service_account.uniqueId, my_service_account.projectId⟩

end New

/-- Outcome assignment for the C5 counterexample: every step completes
except key persistence, which terminates the process (as happens when its
internal gcloud auth list command exhausts its retries and
retryable_command reaches sys.exit). -/
def persistFatalOutcome : Trial.PipeStep → Trial.StepOutcome :=
  fun s => if s = Trial.PipeStep.downloadServiceAccountKey
    then Trial.StepOutcome.procExit 1 else Trial.StepOutcome.ok

/-- Counterexample for C5: in a run where the key file was staged (the
key-creation step completed) but the key-persistence step terminated the
process, the destroy-local-key step is never executed, so the claim
that destroy runs exactly once even when persistence fails is false for
this failure mode. -/
theorem delete_key_skipped_counterexample :
    persistFatalOutcome Trial.PipeStep.createServiceAccountKey =
      Trial.StepOutcome.ok ∧
    Trial.PipeStep.createServiceAccountKey ∈ Trial.executedSteps persistFatalOutcome ∧
    Trial.timesExecuted persistFatalOutcome Trial.PipeStep.deleteKey = 0 := by
  decide

/-- C5 as amended: the destroy-local-key step executes exactly once in
every run in which all seven earlier steps complete without terminating
the process; an HTTP delivery failure of the persistence step never
terminates it (its response status is ignored, second conjunct), but a
process-fatal failure inside the persistence step skips destroy, as the
counterexample shows. -/
theorem delete_key_runs_once (outcome : Trial.PipeStep → Trial.StepOutcome)
    (h : ∀ s, s ≠ Trial.PipeStep.deleteKey → outcome s = Trial.StepOutcome.ok) :
    Trial.timesExecuted outcome Trial.PipeStep.deleteKey = 1 ∧
    (∀ emailTrace postStatus,
      Trial.download_step_outcome emailTrace postStatus =
        Trial.download_step_outcome emailTrace 0) := by
  constructor
  · show (Trial.runSteps outcome Trial.mainSteps).count Trial.PipeStep.deleteKey = 1
    simp only [Trial.mainSteps, Trial.runSteps,
      h Trial.PipeStep.createProject (by decide),
      h Trial.PipeStep.verifyTos (by decide),
      h Trial.PipeStep.enableApis (by decide),
      h Trial.PipeStep.createServiceAccount (by decide),
      h Trial.PipeStep.authorizeServiceAccount (by decide),
      h Trial.PipeStep.createServiceAccountKey (by decide),
      h Trial.PipeStep.downloadServiceAccountKey (by decide)]
    cases hd : outcome Trial.PipeStep.deleteKey <;> simp [hd]
  · intro emailTrace postStatus
    rfl

/-- Witness for C5 as amended: a run in which every step completes
executes destroy exactly once. -/
theorem delete_key_runs_once_witness :
    Trial.timesExecuted (fun _ => Trial.StepOutcome.ok)
      Trial.PipeStep.deleteKey = 1 :=
  (delete_key_runs_once (fun _ => Trial.StepOutcome.ok) (fun _ _ => rfl)).1

/-- Creation command environment where every attempt fails because the
account already exists. -/
def alreadyExistsExec : Int → CommandResult :=
  fun _ => ⟨"", "already exists", 1⟩

/-- Counterexample for C6: in trial.py, when the service-account creation
command keeps failing (as it does when the deterministically named
account already exists), the pipeline does not fall back to fetching the
existing identity: after the three attempts of the default policy the
process terminates with the command's exit status, a fatal abort. -/
theorem existing_account_fatal_counterexample :
    (Trial.create_service_account alreadyExistsExec).attempts = 3 ∧
    (Trial.create_service_account alreadyExistsExec).outcome =
      RetryOutcome.exit 1 "already exists" := by
  decide

/-- C6 as amended: only new.py recovers from an existing account: when its
create call fails with an HttpError, create_service_account returns the
existing account's identity fetched by the get call (and its account name
is the hardcoded test-create-service-account, not tool-derived); in
trial.py, a creation command that fails on every attempt ends in a
process exit carrying the last attempt's status, so re-running against an
existing account is fatal there. -/
theorem existing_account_identity_amended (project_id : String)
    (getResource : String → New.SAResource) (exec : Int → CommandResult)
    (hfailing : ∀ i : Int, (exec i).returnCode ≠ 0) :
    New.create_service_account project_id (Except.error ()) getResource =
      ⟨(getResource (New.existing_account_resource project_id)).email,
       (getResource (New.existing_account_resource project_id)).name,
       (getResource (New.existing_account_resource project_id)).uniqueId,
       (getResource (New.existing_account_resource project_id)).projectId⟩ ∧
    (Trial.create_service_account exec).outcome =
      RetryOutcome.exit (exec 3).returnCode (exec 3).stderr := by
  constructor
  · rfl
  · have hf : ∀ i : Int, (1 : Int) ≤ i → i ≤ 3 →
        ¬ ((exec i).returnCode = 0 ∧
           (false = false ∨ (false = true ∧ (exec i).stdout ≠ ""))) :=
      fun i _ _ hc => hfailing i hc.1
    have hall := retryable_command_go_all_fail exec 3 5 false false 3 1
      (by decide) (by decide) hf
    show (retryable_command_go exec 3 5 false false (3 : Int).toNat 1).outcome =
      RetryOutcome.exit (exec 3).returnCode (exec 3).stderr
    have h3 : ((3 : Int)).toNat = 3 := rfl
    rw [h3, hall]
    rfl

/-- A concrete existing account for the C6 witness. -/
def existingSA : New.SAResource :=
  ⟨"test-create-service-account@p.iam.gserviceaccount.com",
   "projects/p/serviceAccounts/test-create-service-account@p.iam.gserviceaccount.com",
   "12345", "p"⟩

/-- Witness for C6 as amended, at a concrete project and a concrete
always-failing creation command. -/
theorem existing_account_identity_amended_witness :
    New.create_service_account "p" (Except.error ()) (fun _ => existingSA) =
      ⟨existingSA.email, existingSA.name, existingSA.uniqueId,
       existingSA.projectId⟩ ∧
    (Trial.create_service_account alreadyExistsExec).outcome =
      RetryOutcome.exit (alreadyExistsExec 3).returnCode
        (alreadyExistsExec 3).stderr :=
  existing_account_identity_amended "p" (fun _ => existingSA) alreadyExistsExec
    (fun _ => by show (1 : Int) ≠ 0; decide)

/-- C9: whenever the response parses and the error.errors[0].reason path
exists, is_service_disabled returns true regardless of the reason's value,
because the line-240 condition is a disjunction led by the truthy string
literal notACalendarUser, so it holds for every reason string. -/
theorem is_service_disabled_always_true (resp : Trial.ParsedApiError)
    (rs : String) (hreason : resp.reason = some rs) :
    Trial.is_service_disabled (some resp) = true ∧
    (pyTruthy "notACalendarUser" || pyTruthy "notFound" ||
      strContains rs "authError") = true := by
  have htruthy : pyTruthy "notACalendarUser" = true := by decide
  constructor
  · simp only [Trial.is_service_disabled, hreason, htruthy]
    simp
  · simp [htruthy]

/-- Witness for C9: a reason mentioning none of the three terms still
makes is_service_disabled return true. -/
theorem is_service_disabled_always_true_witness :
    Trial.is_service_disabled (some ⟨some "rateLimitExceeded", Option.none⟩) =
      true :=
  (is_service_disabled_always_true ⟨some "rateLimitExceeded", Option.none⟩
    "rateLimitExceeded" rfl).1

/- ## Percent encoding: urllib.parse.quote with safe="" and its decoder,
as used by authorize_service_account (trial.py lines 138-147) and
create_auth_url (new.py lines 266-270). -/

/-- Upper-case hex digit of a nibble. -/
def hexDigitChar (n : Nat) : Char :=
  if n < 10 then Char.ofNat (48 + n) else Char.ofNat (55 + n)

/-- Is the character a hex digit (either case)? -/
def isHexChar (c : Char) : Bool :=
  (48 ≤ c.toNat && c.toNat ≤ 57) || (65 ≤ c.toNat && c.toNat ≤ 70) ||
    (97 ≤ c.toNat && c.toNat ≤ 102)

/-- Value of a hex digit character. -/
def hexCharVal (c : Char) : Nat :=
  if c.toNat ≤ 57 then c.toNat - 48
  else if c.toNat ≤ 70 then c.toNat - 55
  else c.toNat - 87

/-- The characters urllib.parse.quote never escapes when safe="": ASCII
letters, digits, underscore, dot, hyphen, tilde. -/
def isUnreservedChar (c : Char) : Bool :=
  c.isAlphanum || c = '_' || c = '.' || c = '-' || c = '~'

/-- Percent-encoding of one character (one byte: the strings the scripts
encode are ASCII). -/
def quoteChar (c : Char) : List Char :=
  if isUnreservedChar c then [c]
  else ['%', hexDigitChar (c.toNat / 16), hexDigitChar (c.toNat % 16)]

/-- urllib.parse.quote with safe="" over the characters of a string. -/
def quoteChars : List Char → List Char
  | [] => []
  | c :: rest => quoteChar c ++ quoteChars rest

/-- Percent-decoding: a percent sign followed by two hex digits becomes
the encoded byte; anything else passes through unchanged, as
urllib.parse.unquote leaves invalid escapes alone. -/
def unquoteChars (l : List Char) : List Char :=
  match l with
  | [] => []
  | c :: rest =>
    if c = '%' then
      match rest with
      | a :: b :: rest2 =>
        if isHexChar a && isHexChar b then
          Char.ofNat (16 * hexCharVal a + hexCharVal b) :: unquoteChars rest2
        else c :: unquoteChars (a :: b :: rest2)
      | [a] => c :: unquoteChars [a]
      | [] => [c]
    else c :: unquoteChars rest
termination_by l.length
decreasing_by all_goals simp_wf <;> omega

lemma isHexChar_hexDigitChar : ∀ n : Nat, n < 16 →
    isHexChar (hexDigitChar n) = true := by decide

lemma hexCharVal_hexDigitChar : ∀ n : Nat, n < 16 →
    hexCharVal (hexDigitChar n) = n := by decide

lemma unquoteChars_cons_ne (c : Char) (l : List Char) (hc : ¬ c = '%') :
    unquoteChars (c :: l) = c :: unquoteChars l := by
  rw [unquoteChars.eq_def]
  simp only [if_neg hc]

lemma unquoteChars_escape (a b : Char) (l : List Char)
    (ha : isHexChar a = true) (hb : isHexChar b = true) :
    unquoteChars ('%' :: a :: b :: l) =
      Char.ofNat (16 * hexCharVal a + hexCharVal b) :: unquoteChars l := by
  simp [unquoteChars, ha, hb]

/-- Decoding inverts encoding on ASCII character lists. -/
lemma unquote_quote_chars (l : List Char) (h : ∀ c ∈ l, c.toNat < 128) :
    unquoteChars (quoteChars l) = l := by
  induction l with
  | nil => simp [quoteChars, unquoteChars]
  | cons c rest ih =>
    have hc : c.toNat < 128 := h c (List.mem_cons_self c rest)
    have hrest := ih (fun x hx => h x (List.mem_cons_of_mem c hx))
    show unquoteChars (quoteChar c ++ quoteChars rest) = c :: rest
    by_cases hu : isUnreservedChar c = true
    · have hcp : ¬ c = '%' := by
        intro e
        rw [e] at hu
        exact absurd hu (by decide)
      simp only [quoteChar, if_pos hu, List.cons_append, List.nil_append]
      rw [unquoteChars_cons_ne c _ hcp, hrest]
    · have h1 : c.toNat / 16 < 16 := by omega
      have h2 : c.toNat % 16 < 16 := by omega
      simp only [quoteChar, if_neg hu, List.cons_append, List.nil_append]
      rw [unquoteChars_escape _ _ _ (isHexChar_hexDigitChar _ h1)
        (isHexChar_hexDigitChar _ h2), hexCharVal_hexDigitChar _ h1,
        hexCharVal_hexDigitChar _ h2]
      have hmod : 16 * (c.toNat / 16) + c.toNat % 16 = c.toNat := by omega
      rw [hmod, Char.ofNat_toNat, hrest]

namespace Trial

/-- The percent-encoded clientScopeToAdd value built at line 140: the
scopes joined with a comma and quoted as one unit. -/
def scopes_param (scopes : List String) : List Char :=
  quoteChars (String.intercalate "," scopes).data

/-- Head of the domain-wide-delegation URL template (lines 53-54), up to
the clientIdToAdd value. -/
def dwd_url_head : String :=
  "https://admin.google.com/ac/owl/domainwidedelegation?overwriteClientId=true&clientIdToAdd="

/-- The authorization URL built by authorize_service_account (line 141):
the template applied to the service account id and the encoded scopes. -/
def authorize_url (service_account_id : String) (scopes : List String) :
    String :=
  dwd_url_head ++ service_account_id ++ "&clientScopeToAdd=" ++
    String.mk (scopes_param scopes)

end Trial

/-- C7: the clientScopeToAdd parameter of the delegation URL is the
comma-joined scope list percent-encoded as a single unit, and
percent-decoding that parameter reconstructs exactly the original
comma-joined scope list (stated for ASCII scope strings, which all the
configured scopes are; new.py create_auth_url builds the parameter with
the same join and quote calls). -/
theorem delegation_scopes_roundtrip (scopes : List String)
    (service_account_id : String)
    (hascii : ∀ c ∈ (String.intercalate "," scopes).data, c.toNat < 128) :
    unquoteChars (Trial.scopes_param scopes) =
      (String.intercalate "," scopes).data ∧
    Trial.authorize_url service_account_id scopes =
      Trial.dwd_url_head ++ service_account_id ++ "&clientScopeToAdd=" ++
        String.mk (Trial.scopes_param scopes) :=
  ⟨unquote_quote_chars _ hascii, rfl⟩

/-- Witness for C7 at two concrete scopes containing characters that do
get escaped (colon, slash, space, comma). -/
theorem delegation_scopes_roundtrip_witness :
    unquoteChars (Trial.scopes_param ["https://a.example/x", "mail b"]) =
      (String.intercalate "," ["https://a.example/x", "mail b"]).data :=
  (delegation_scopes_roundtrip ["https://a.example/x", "mail b"] "42"
    (by decide)).1

/- ## enable_apis (trial.py lines 112-117) -/

namespace Trial

/-- Events observable in a run of enable_apis: completion of the
enable_api call for one API, the final completion report (the log at line
117), and termination of the process by a fatal failure inside a call. -/
inductive ApiEvent
  | taskDone (api : String)
  | reportDone
  | procExit (code : Int)
deriving DecidableEq, Repr

/-- One completion event for each API after the first: line 115 maps
enable_api over APIS[1:], since verify_tos_accepted already enabled
APIS[0]. -/
def enable_api_events : List ApiEvent :=
  (APIS.drop 1).map ApiEvent.taskDone

/-- The traces enable_apis can produce: the awaited asyncio.gather at
line 116 resumes only when all dispatched enable_api calls have
completed, so either every call completes, in some interleaving order,
and only then the completion report is emitted, or a fatal call
terminates the process after some subset of the calls completed and no
report is emitted. -/
def enableApisRun (t : List ApiEvent) : Prop :=
  (∃ done, done.Perm enable_api_events ∧ t = done ++ [ApiEvent.reportDone]) ∨
  (∃ done c, List.Subperm done enable_api_events ∧
    t = done ++ [ApiEvent.procExit c])

end Trial

/-- C8: in every trace of enable_apis that reports completion, the report
is the last event and is preceded by exactly one completion event for each
configured API after the first: the step never reports done while a
dispatched enable call is outstanding. -/
theorem enable_apis_completion_barrier (t : List Trial.ApiEvent)
    (hrun : Trial.enableApisRun t)
    (hdone : Trial.ApiEvent.reportDone ∈ t) :
    t.getLast? = some Trial.ApiEvent.reportDone ∧
    ∀ api ∈ Trial.APIS.drop 1,
      t.dropLast.count (Trial.ApiEvent.taskDone api) = 1 := by
  rcases hrun with ⟨done, hperm, rfl⟩ | ⟨done, c, hsub, rfl⟩
  · constructor
    · exact List.getLast?_concat done
    · intro api hapi
      rw [List.dropLast_concat, hperm.count_eq]
      simp [Trial.APIS] at hapi
      rcases hapi with rfl | rfl | rfl | rfl <;> decide
  · exfalso
    rcases List.mem_append.mp hdone with hin | hin
    · have hmem := hsub.subset hin
      simp [Trial.enable_api_events, Trial.APIS] at hmem
    · simp at hin

/-- Witness for C8: the trace in which the calls complete in dispatch
order satisfies the barrier property. -/
theorem enable_apis_completion_barrier_witness :
    (Trial.enable_api_events ++ [Trial.ApiEvent.reportDone]).getLast? =
      some Trial.ApiEvent.reportDone ∧
    ∀ api ∈ Trial.APIS.drop 1,
      (Trial.enable_api_events ++
        [Trial.ApiEvent.reportDone]).dropLast.count
        (Trial.ApiEvent.taskDone api) = 1 :=
  enable_apis_completion_barrier _
    (Or.inl ⟨Trial.enable_api_events, List.Perm.refl _, rfl⟩) (by decide)
